import Mathlib

/-
Verification of the LabExT movement core (LabExT/Movement/Transformations.py,
Calibration.py, MoverNew.py) against its natural-language specification.

The Python code is shallowly embedded: coordinates are functions from the
axis enumeration to rationals (numpy double arithmetic on the inputs in
question is exact small-rational arithmetic), fallible operations return
Except values whose error constructor names the Python exception class,
and stateful methods are written as explicit state passing.  Sequences of
hardware commands are recorded as lists.
-/

/-- Error values, one constructor per Python exception class raised by the
embedded code. -/
inductive Err where
  | valueError
  | runtimeError
  | calibrationError
  | moverError
  | unsupportedOperation
  | assertionError
  | unboundLocalError
  | stageError
  deriving DecidableEq, Repr

/-- Axis enumeration from Transformations.py (X=0, Y=1, Z=2). -/
inductive Axis where
  | X
  | Y
  | Z
  deriving DecidableEq, Repr

instance : Fintype Axis :=
  ⟨⟨[Axis.X, Axis.Y, Axis.Z], by decide⟩, by intro a; cases a <;> decide⟩

/-- Direction enumeration from Transformations.py (POSITIVE=1, NEGATIVE=-1). -/
inductive Direction where
  | POSITIVE
  | NEGATIVE
  deriving DecidableEq, Repr

instance : Fintype Direction :=
  ⟨⟨[Direction.POSITIVE, Direction.NEGATIVE], by decide⟩, by intro a; cases a <;> decide⟩

/-- Numeric value of a Direction, as used by AxesRotation.update. -/
def Direction.value : Direction → ℚ
  | Direction.POSITIVE => 1
  | Direction.NEGATIVE => -1

/-- A 3-component coordinate (the x, y, z attributes of Coordinate). -/
def Coord : Type := Axis → ℚ

instance : DecidableEq Coord := by
  unfold Coord
  infer_instance

/-- Builds a coordinate from its three components, as Coordinate(x, y, z). -/
def coord (x y z : ℚ) : Coord := fun a =>
  match a with
  | Axis.X => x
  | Axis.Y => y
  | Axis.Z => z

/-- Componentwise coordinate addition (Coordinate.__add__ after the type
check has passed). -/
def addC (a b : Coord) : Coord := fun i => a i + b i

/-- Componentwise coordinate subtraction (Coordinate.__sub__ after the type
check has passed). -/
def subC (a b : Coord) : Coord := fun i => a i - b i

/-- Componentwise coordinate negation (numpy unary minus on the wiggle
difference vector). -/
def negC (a : Coord) : Coord := fun i => -a i

/-- A 3x3 rational matrix, first index the row, second the column. -/
def Mat3 : Type := Axis → Axis → ℚ

instance : DecidableEq Mat3 := by
  unfold Mat3
  infer_instance

/-- The 3x3 identity matrix (np.identity(3)). -/
def identity3 : Mat3 := fun r c => if r = c then 1 else 0

/-- Matrix-vector product (numpy matrix.dot(vector)). -/
def mulVec3 (M : Mat3) (v : Coord) : Coord := fun r =>
  M r Axis.X * v Axis.X + M r Axis.Y * v Axis.Y + M r Axis.Z * v Axis.Z

/-- Matrix-matrix product. -/
def matMul3 (A B : Mat3) : Mat3 := fun r c =>
  A r Axis.X * B Axis.X c + A r Axis.Y * B Axis.Y c + A r Axis.Z * B Axis.Z c

/-- Determinant of a 3x3 matrix by cofactor expansion along the first row. -/
def det3 (M : Mat3) : ℚ :=
  M Axis.X Axis.X * (M Axis.Y Axis.Y * M Axis.Z Axis.Z - M Axis.Y Axis.Z * M Axis.Z Axis.Y)
  - M Axis.X Axis.Y * (M Axis.Y Axis.X * M Axis.Z Axis.Z - M Axis.Y Axis.Z * M Axis.Z Axis.X)
  + M Axis.X Axis.Z * (M Axis.Y Axis.X * M Axis.Z Axis.Y - M Axis.Y Axis.Y * M Axis.Z Axis.X)

/-- Adjugate (transposed cofactor matrix) of a 3x3 matrix. -/
def adj3 (M : Mat3) : Mat3 := fun r c =>
  match r, c with
  | Axis.X, Axis.X => M Axis.Y Axis.Y * M Axis.Z Axis.Z - M Axis.Y Axis.Z * M Axis.Z Axis.Y
  | Axis.X, Axis.Y => M Axis.X Axis.Z * M Axis.Z Axis.Y - M Axis.X Axis.Y * M Axis.Z Axis.Z
  | Axis.X, Axis.Z => M Axis.X Axis.Y * M Axis.Y Axis.Z - M Axis.X Axis.Z * M Axis.Y Axis.Y
  | Axis.Y, Axis.X => M Axis.Y Axis.Z * M Axis.Z Axis.X - M Axis.Y Axis.X * M Axis.Z Axis.Z
  | Axis.Y, Axis.Y => M Axis.X Axis.X * M Axis.Z Axis.Z - M Axis.X Axis.Z * M Axis.Z Axis.X
  | Axis.Y, Axis.Z => M Axis.X Axis.Z * M Axis.Y Axis.X - M Axis.X Axis.X * M Axis.Y Axis.Z
  | Axis.Z, Axis.X => M Axis.Y Axis.X * M Axis.Z Axis.Y - M Axis.Y Axis.Y * M Axis.Z Axis.X
  | Axis.Z, Axis.Y => M Axis.X Axis.Y * M Axis.Z Axis.X - M Axis.X Axis.X * M Axis.Z Axis.Y
  | Axis.Z, Axis.Z => M Axis.X Axis.X * M Axis.Y Axis.Y - M Axis.X Axis.Y * M Axis.Y Axis.X

/-- Exact inverse of a 3x3 matrix, adjugate over determinant; this is what
np.linalg.inv computes for the (exactly representable) signed permutation
matrices it is applied to in AxesRotation.rotate_stage_to_chip. -/
def inv3 (M : Mat3) : Mat3 := fun r c => adj3 M r c / det3 M

/-- Transpose of a 3x3 matrix. -/
def transpose3 (M : Mat3) : Mat3 := fun r c => M c r

/-- Absolute value of a rational (numpy np.absolute). -/
def ratAbs (q : ℚ) : ℚ := if q < 0 then -q else q

/-- Sum of absolute values of one column (numpy abs_matrix.sum(axis=0)). -/
def colAbsSum (M : Mat3) (c : Axis) : ℚ :=
  ratAbs (M Axis.X c) + ratAbs (M Axis.Y c) + ratAbs (M Axis.Z c)

/-- Sum of absolute values of one row (numpy abs_matrix.sum(axis=1)). -/
def rowAbsSum (M : Mat3) (r : Axis) : ℚ :=
  ratAbs (M r Axis.X) + ratAbs (M r Axis.Y) + ratAbs (M r Axis.Z)

/-- AxesRotation from Transformations.py: holds the 3x3 assignment matrix.
Entry (stage_axis, chip_axis): update writes direction.value into row
stage_axis of column chip_axis. -/
structure AxesRotation where
  matrix : Mat3
  deriving DecidableEq

/-- AxesRotation.__init__ / AxesRotation.reset: the identity matrix. -/
def identityAxesRotation : AxesRotation := ⟨identity3⟩

/-- AxesRotation.update: replaces column chip_axis of the matrix with the
signed (direction) unit vector of stage_axis. -/
def AxesRotation.update (r : AxesRotation) (chip_axis : Axis) (direction : Direction)
    (stage_axis : Axis) : AxesRotation :=
  ⟨fun s c => if c = chip_axis then (if s = stage_axis then direction.value else 0)
    else r.matrix s c⟩

/-- AxesRotation.is_valid: the absolute matrix has row sums and column sums
all equal to 1 (signed permutation matrix check). -/
def AxesRotation.is_valid (r : AxesRotation) : Bool :=
  decide (∀ a : Axis, colAbsSum r.matrix a = 1 ∧ rowAbsSum r.matrix a = 1)

/-- AxesRotation.rotate_chip_to_stage: raises ValueError when the assignment
is not a valid rotation, otherwise multiplies the matrix with the chip
coordinate. -/
def AxesRotation.rotate_chip_to_stage (r : AxesRotation) (c : Coord) : Except Err Coord :=
  if r.is_valid then Except.ok (mulVec3 r.matrix c) else Except.error Err.valueError

/-- AxesRotation.rotate_stage_to_chip: raises ValueError when the assignment
is not a valid rotation, otherwise multiplies the inverse matrix
(np.linalg.inv) with the stage coordinate. -/
def AxesRotation.rotate_stage_to_chip (r : AxesRotation) (s : Coord) : Except Err Coord :=
  if r.is_valid then Except.ok (mulVec3 (inv3 r.matrix) s) else Except.error Err.valueError

/-- One of the 48 fully assigned axes rotations: for each chip axis a, the
update AxesRotation.update(a, d a, sigma a) has been applied to the initial
identity rotation (chip axis a maps to stage axis sigma a with direction
d a), exactly as the calibration wizard issues them. -/
def signedPermRotation (sigma : Axis → Axis) (d : Axis → Direction) : AxesRotation :=
  ((identityAxesRotation.update Axis.X (d Axis.X) (sigma Axis.X)).update
      Axis.Y (d Axis.Y) (sigma Axis.Y)).update
    Axis.Z (d Axis.Z) (sigma Axis.Z)

/-- Closed form of the signed-permutation matrix built by the three updates. -/
theorem signedPermRotation_matrix (sigma : Axis → Axis) (d : Axis → Direction) :
    (signedPermRotation sigma d).matrix
      = fun s c => if s = sigma c then (d c).value else 0 := by
  funext s c
  cases c <;> simp [signedPermRotation, AxesRotation.update, identityAxesRotation]

/-- Cramer identity for 3x3 matrices: the adjugate is a left quasi-inverse. -/
theorem adj3_mul (A : Mat3) :
    matMul3 (adj3 A) A = fun r c => det3 A * identity3 r c := by
  funext r c
  cases r <;> cases c <;> simp [matMul3, adj3, det3, identity3] <;> ring

/-- Cramer identity for 3x3 matrices: the adjugate is a right quasi-inverse. -/
theorem mul_adj3 (A : Mat3) :
    matMul3 A (adj3 A) = fun r c => det3 A * identity3 r c := by
  funext r c
  cases r <;> cases c <;> simp [matMul3, adj3, det3, identity3] <;> ring

/-- The 3x3 determinant is multiplicative. -/
theorem det3_matMul3 (A B : Mat3) : det3 (matMul3 A B) = det3 A * det3 B := by
  simp only [det3, matMul3]
  ring

/-- Determinant of the identity matrix. -/
theorem det3_identity3 : det3 identity3 = 1 := by
  simp [det3, identity3]

/-- A 3x3 matrix with nonzero determinant has inv3 as left inverse. -/
theorem inv3_mul (A : Mat3) (hd : det3 A ≠ 0) : matMul3 (inv3 A) A = identity3 := by
  funext r c
  have h := congrFun (congrFun (adj3_mul A) r) c
  simp only [matMul3, inv3] at h ⊢
  field_simp
  linear_combination h

/-- A 3x3 matrix with nonzero determinant has inv3 as right inverse. -/
theorem mul_inv3 (A : Mat3) (hd : det3 A ≠ 0) : matMul3 A (inv3 A) = identity3 := by
  funext r c
  have h := congrFun (congrFun (mul_adj3 A) r) c
  simp only [matMul3, inv3] at h ⊢
  field_simp
  linear_combination h

/-- Direction values square to one. -/
theorem direction_value_sq (x : Direction) : x.value * x.value = 1 := by
  cases x <;> norm_num [Direction.value]

/-- Direction values have absolute value one. -/
theorem ratAbs_direction_value (x : Direction) : ratAbs x.value = 1 := by
  cases x <;> norm_num [Direction.value, ratAbs]

/-- ratAbs of zero. -/
theorem ratAbs_zero : ratAbs 0 = 0 := by
  norm_num [ratAbs]

/-- The transpose of a fully assigned signed-permutation matrix is a left
inverse of the matrix. -/
theorem signedPerm_transpose_mul (sigma : Axis → Axis) (hb : Function.Bijective sigma)
    (d : Axis → Direction) :
    matMul3 (transpose3 (signedPermRotation sigma d).matrix)
      (signedPermRotation sigma d).matrix = identity3 := by
  rw [signedPermRotation_matrix]
  funext r c
  by_cases hrc : r = c
  · subst hrc
    cases h : sigma r <;>
      simp [matMul3, transpose3, identity3, h, direction_value_sq (d r), reduceCtorEq]
  · cases h1 : sigma r <;> cases h2 : sigma c <;>
      first
        | exact absurd (hb.1 (h1.trans h2.symm)) hrc
        | simp [matMul3, transpose3, identity3, h1, h2, hrc, reduceCtorEq]

/-- The determinant of a fully assigned signed-permutation matrix is nonzero. -/
theorem signedPerm_det_ne_zero (sigma : Axis → Axis) (hb : Function.Bijective sigma)
    (d : Axis → Direction) : det3 (signedPermRotation sigma d).matrix ≠ 0 := by
  intro h0
  have h := congrArg det3 (signedPerm_transpose_mul sigma hb d)
  rw [det3_matMul3, det3_identity3, h0, mul_zero] at h
  exact zero_ne_one h

/-- Every fully assigned signed-permutation rotation passes is_valid. -/
theorem signedPerm_is_valid (sigma : Axis → Axis) (hb : Function.Bijective sigma)
    (d : Axis → Direction) : (signedPermRotation sigma d).is_valid = true := by
  rw [AxesRotation.is_valid, decide_eq_true_eq, signedPermRotation_matrix]
  intro a
  constructor
  · cases h : sigma a <;>
      simp [colAbsSum, h, ratAbs_direction_value, ratAbs_zero]
  · rcases hb.2 a with ⟨c, hc⟩
    cases c
    · have hxy : sigma Axis.X ≠ sigma Axis.Y := fun h => by cases hb.1 h
      have hxz : sigma Axis.X ≠ sigma Axis.Z := fun h => by cases hb.1 h
      subst hc
      simp [rowAbsSum, hxy, hxz, ratAbs_direction_value, ratAbs_zero]
    · have hyx : sigma Axis.Y ≠ sigma Axis.X := fun h => by cases hb.1 h
      have hyz : sigma Axis.Y ≠ sigma Axis.Z := fun h => by cases hb.1 h
      subst hc
      simp [rowAbsSum, hyx, hyz, ratAbs_direction_value, ratAbs_zero]
    · have hzx : sigma Axis.Z ≠ sigma Axis.X := fun h => by cases hb.1 h
      have hzy : sigma Axis.Z ≠ sigma Axis.Y := fun h => by cases hb.1 h
      subst hc
      simp [rowAbsSum, hzx, hzy, ratAbs_direction_value, ratAbs_zero]

/-- Matrix-vector multiplication is compatible with matrix multiplication. -/
theorem mulVec3_matMul3 (A B : Mat3) (v : Coord) :
    mulVec3 (matMul3 A B) v = mulVec3 A (mulVec3 B v) := by
  funext a
  cases a <;> simp [mulVec3, matMul3] <;> ring

/-- The identity matrix acts as the identity on coordinates. -/
theorem mulVec3_identity3 (v : Coord) : mulVec3 identity3 v = v := by
  funext a
  cases a <;> simp [mulVec3, identity3]

/-- C6: for every AxesRotation built from one of the 48 combinations of a
bijective axis assignment and per-axis directions, rotate_chip_to_stage and
rotate_stage_to_chip are mutually inverse on every coordinate, and on any
rotation whose matrix fails is_valid both operations raise ValueError. -/
theorem axes_rotation_roundtrip (sigma : Axis → Axis) (hb : Function.Bijective sigma)
    (d : Axis → Direction) (c : Coord) :
    ((signedPermRotation sigma d).rotate_chip_to_stage c >>= fun s =>
      (signedPermRotation sigma d).rotate_stage_to_chip s) = Except.ok c ∧
    ((signedPermRotation sigma d).rotate_stage_to_chip c >>= fun s =>
      (signedPermRotation sigma d).rotate_chip_to_stage s) = Except.ok c ∧
    (∀ r : AxesRotation, r.is_valid = false →
      r.rotate_chip_to_stage c = Except.error Err.valueError ∧
      r.rotate_stage_to_chip c = Except.error Err.valueError) := by
  have hv := signedPerm_is_valid sigma hb d
  have hdet := signedPerm_det_ne_zero sigma hb d
  refine ⟨?_, ?_, ?_⟩
  · simp only [AxesRotation.rotate_chip_to_stage, AxesRotation.rotate_stage_to_chip, hv,
      if_true, bind, Except.bind]
    rw [← mulVec3_matMul3, inv3_mul _ hdet, mulVec3_identity3]
  · simp only [AxesRotation.rotate_chip_to_stage, AxesRotation.rotate_stage_to_chip, hv,
      if_true, bind, Except.bind]
    rw [← mulVec3_matMul3, mul_inv3 _ hdet, mulVec3_identity3]
  · intro r hr
    simp [AxesRotation.rotate_chip_to_stage, AxesRotation.rotate_stage_to_chip, hr]

/-- Witness for C6: the round trip and error behaviour at the identity
assignment, all-positive directions and the coordinate (1, 2, 3). -/
theorem axes_rotation_roundtrip_witness :
    ((signedPermRotation (fun a => a) (fun _ => Direction.POSITIVE)).rotate_chip_to_stage
        (coord 1 2 3) >>= fun s =>
      (signedPermRotation (fun a => a) (fun _ => Direction.POSITIVE)).rotate_stage_to_chip s)
      = Except.ok (coord 1 2 3) ∧
    ((signedPermRotation (fun a => a) (fun _ => Direction.POSITIVE)).rotate_stage_to_chip
        (coord 1 2 3) >>= fun s =>
      (signedPermRotation (fun a => a) (fun _ => Direction.POSITIVE)).rotate_chip_to_stage s)
      = Except.ok (coord 1 2 3) ∧
    (∀ r : AxesRotation, r.is_valid = false →
      r.rotate_chip_to_stage (coord 1 2 3) = Except.error Err.valueError ∧
      r.rotate_stage_to_chip (coord 1 2 3) = Except.error Err.valueError) :=
  axes_rotation_roundtrip (fun a => a) Function.bijective_id (fun _ => Direction.POSITIVE)
    (coord 1 2 3)

/-- Python class tags for the three Coordinate variants of Transformations.py:
the untagged base class Coordinate and its subclasses StageCoordinate and
ChipCoordinate. -/
inductive CoordKind where
  | generic
  | stage
  | chip
  deriving DecidableEq, Repr

/-- A Python coordinate object: its class tag and its three components. -/
structure PyCoord where
  kind : CoordKind
  v : Coord
  deriving DecidableEq

/-- Python isinstance(other, type(self)) on the coordinate class hierarchy:
the base class accepts every coordinate (subclasses included); each tagged
subclass accepts only itself (it has no subclasses). -/
def isinstanceOfKind (other self : CoordKind) : Bool :=
  match self with
  | CoordKind.generic => true
  | CoordKind.stage => other == CoordKind.stage
  | CoordKind.chip => other == CoordKind.chip

/-- Coordinate.__add__: raises ValueError unless other is an instance of
type(self); the result has the type of the left operand. -/
def pyAdd (a b : PyCoord) : Except Err PyCoord :=
  if isinstanceOfKind b.kind a.kind then Except.ok ⟨a.kind, addC a.v b.v⟩
  else Except.error Err.valueError

/-- Coordinate.__sub__: raises ValueError unless other is an instance of
type(self); the result has the type of the left operand. -/
def pySub (a b : PyCoord) : Except Err PyCoord :=
  if isinstanceOfKind b.kind a.kind then Except.ok ⟨a.kind, subC a.v b.v⟩
  else Except.error Err.valueError

/-- C8 counterexample: adding a StageCoordinate to an untagged Coordinate
(untagged on the left) does not raise: isinstance accepts the subclass
instance and the addition succeeds with an untagged result. -/
theorem coordinate_add_generic_left_succeeds :
    pyAdd ⟨CoordKind.generic, coord 1 2 3⟩ ⟨CoordKind.stage, coord 4 5 6⟩
      = Except.ok ⟨CoordKind.generic, coord 5 7 9⟩ := by
  have h : addC (coord 1 2 3) (coord 4 5 6) = coord 5 7 9 := by
    funext a
    cases a <;> norm_num [addC, coord]
  simp [pyAdd, isinstanceOfKind, h]

/-- C8 as amended: addition and subtraction raise ValueError between the two
distinct frame-tagged variants (both orders) and when a frame-tagged left
operand meets an untagged right operand; an untagged left operand accepts
any coordinate and yields an untagged result. -/
theorem coordinate_arith_frame_rules (v w : Coord) :
    pyAdd ⟨CoordKind.stage, v⟩ ⟨CoordKind.chip, w⟩ = Except.error Err.valueError ∧
    pyAdd ⟨CoordKind.chip, v⟩ ⟨CoordKind.stage, w⟩ = Except.error Err.valueError ∧
    pyAdd ⟨CoordKind.stage, v⟩ ⟨CoordKind.generic, w⟩ = Except.error Err.valueError ∧
    pyAdd ⟨CoordKind.chip, v⟩ ⟨CoordKind.generic, w⟩ = Except.error Err.valueError ∧
    pyAdd ⟨CoordKind.generic, v⟩ ⟨CoordKind.stage, w⟩
      = Except.ok ⟨CoordKind.generic, addC v w⟩ ∧
    pyAdd ⟨CoordKind.generic, v⟩ ⟨CoordKind.chip, w⟩
      = Except.ok ⟨CoordKind.generic, addC v w⟩ ∧
    pySub ⟨CoordKind.stage, v⟩ ⟨CoordKind.chip, w⟩ = Except.error Err.valueError ∧
    pySub ⟨CoordKind.chip, v⟩ ⟨CoordKind.stage, w⟩ = Except.error Err.valueError ∧
    pySub ⟨CoordKind.stage, v⟩ ⟨CoordKind.generic, w⟩ = Except.error Err.valueError ∧
    pySub ⟨CoordKind.chip, v⟩ ⟨CoordKind.generic, w⟩ = Except.error Err.valueError ∧
    pySub ⟨CoordKind.generic, v⟩ ⟨CoordKind.stage, w⟩
      = Except.ok ⟨CoordKind.generic, subC v w⟩ ∧
    pySub ⟨CoordKind.generic, v⟩ ⟨CoordKind.chip, w⟩
      = Except.ok ⟨CoordKind.generic, subC v w⟩ ∧
    (pyAdd ⟨CoordKind.stage, v⟩ ⟨CoordKind.stage, w⟩
      = Except.ok ⟨CoordKind.stage, addC v w⟩) ∧
    (pyAdd ⟨CoordKind.chip, v⟩ ⟨CoordKind.chip, w⟩
      = Except.ok ⟨CoordKind.chip, addC v w⟩) := by
  refine ⟨rfl, rfl, rfl, rfl, rfl, rfl, rfl, rfl, rfl, rfl, rfl, rfl, rfl, rfl⟩

/-- ratAbs of one. -/
theorem ratAbs_one : ratAbs 1 = 1 := by
  norm_num [ratAbs]

/-- The initial identity axes rotation passes is_valid. -/
theorem identityAxesRotation_is_valid : identityAxesRotation.is_valid = true := by
  rw [AxesRotation.is_valid, decide_eq_true_eq]
  intro a
  cases a <;> constructor <;>
    simp [colAbsSum, rowAbsSum, identityAxesRotation, identity3, ratAbs_zero, ratAbs_one]

/-- CoordinatePairing from Transformations.py, restricted to the two
coordinate fields consumed by SinglePointTransformation.update (the
calibration and device fields are only read by the Kabsch duplicate-device
check, which has no claim). -/
structure CoordinatePairing where
  stage_coordinate : Option Coord
  chip_coordinate : Option Coord

/-- SinglePointTransformation from Transformations.py: the retained pairing
coordinates and the derived stage offset, over a shared AxesRotation. -/
structure SinglePointTransformation where
  axes_rotation : AxesRotation
  chip_coordinate : Option Coord
  stage_coordinate : Option Coord
  stage_offset : Option Coord

/-- SinglePointTransformation.__init__ / reset: no pairing, no offset. -/
def SinglePointTransformation.init (r : AxesRotation) : SinglePointTransformation :=
  ⟨r, none, none, none⟩

/-- SinglePointTransformation.is_valid: an offset exists and the underlying
axes rotation is valid. -/
def SinglePointTransformation.is_valid (t : SinglePointTransformation) : Bool :=
  t.stage_offset.isSome && t.axes_rotation.is_valid

/-- SinglePointTransformation.update: rejects an incomplete pairing, then
stores the pairing and recomputes the stage offset as
rotate_chip_to_stage(chip) - stage (any rotation error propagates). -/
def SinglePointTransformation.update (t : SinglePointTransformation)
    (pairing : CoordinatePairing) : Except Err SinglePointTransformation :=
  match pairing.chip_coordinate, pairing.stage_coordinate with
  | some cc, some sc =>
    match t.axes_rotation.rotate_chip_to_stage cc with
    | Except.error e => Except.error e
    | Except.ok rot => Except.ok
      { t with
        chip_coordinate := some cc
        stage_coordinate := some sc
        stage_offset := some (subC rot sc) }
  | _, _ => Except.error Err.valueError

/-- SinglePointTransformation.chip_to_stage: raises RuntimeError when not
valid, otherwise returns rotate_chip_to_stage(chip) + stage_offset. -/
def SinglePointTransformation.chip_to_stage (t : SinglePointTransformation)
    (c : Coord) : Except Err Coord :=
  if t.is_valid then
    match t.stage_offset, t.axes_rotation.rotate_chip_to_stage c with
    | some off, Except.ok rot => Except.ok (addC rot off)
    | _, _ => Except.error Err.runtimeError
  else Except.error Err.runtimeError

/-- SinglePointTransformation.stage_to_chip: raises RuntimeError when not
valid, otherwise returns rotate_stage_to_chip(stage - stage_offset). -/
def SinglePointTransformation.stage_to_chip (t : SinglePointTransformation)
    (s : Coord) : Except Err Coord :=
  if t.is_valid then
    match t.stage_offset with
    | some off => t.axes_rotation.rotate_stage_to_chip (subC s off)
    | none => Except.error Err.runtimeError
  else Except.error Err.runtimeError

/-- The single point transformation obtained from the identity rotation and
the pairing stage=(1,2,3), chip=(4,5,6): the stored offset is
rotate(4,5,6) - (1,2,3) = (3,3,3). -/
def spt456 : SinglePointTransformation :=
  { axes_rotation := identityAxesRotation
    chip_coordinate := some (coord 4 5 6)
    stage_coordinate := some (coord 1 2 3)
    stage_offset := some (coord 3 3 3) }

/-- inv3 of the identity matrix is the identity matrix. -/
theorem inv3_identity3 : inv3 identity3 = identity3 := by
  funext r c
  cases r <;> cases c <;> simp [inv3, adj3, det3, identity3]

/-- Rotating with the identity axes rotation is the identity map,
chip to stage. -/
theorem identity_rotate_chip (c : Coord) :
    identityAxesRotation.rotate_chip_to_stage c = Except.ok c := by
  rw [AxesRotation.rotate_chip_to_stage, identityAxesRotation_is_valid]
  have h : identityAxesRotation.matrix = identity3 := rfl
  simp [h, mulVec3_identity3]

/-- Rotating with the identity axes rotation is the identity map,
stage to chip. -/
theorem identity_rotate_stage (s : Coord) :
    identityAxesRotation.rotate_stage_to_chip s = Except.ok s := by
  rw [AxesRotation.rotate_stage_to_chip, identityAxesRotation_is_valid]
  have h : identityAxesRotation.matrix = identity3 := rfl
  simp [h, inv3_identity3, mulVec3_identity3]

/-- C5 evaluation: updating a fresh SinglePointTransformation over the
identity rotation with the pairing stage=(1,2,3), chip=(4,5,6) stores the
offset (3,3,3), after which chip_to_stage((4,5,6)) returns (7,8,9) rather
than the anchor stage coordinate (1,2,3), and stage_to_chip((1,2,3)) returns
(-2,-1,0) rather than the anchor chip coordinate (4,5,6): the fixed pairing
is not mapped onto itself in either direction. -/
theorem single_point_anchor_not_roundtripped :
    (SinglePointTransformation.init identityAxesRotation).update
      ⟨some (coord 1 2 3), some (coord 4 5 6)⟩ = Except.ok spt456 ∧
    spt456.chip_to_stage (coord 4 5 6) = Except.ok (coord 7 8 9) ∧
    spt456.stage_to_chip (coord 1 2 3) = Except.ok (coord (-2) (-1) 0) ∧
    coord 7 8 9 ≠ coord 1 2 3 ∧
    coord (-2) (-1) 0 ≠ coord 4 5 6 := by
  have hsub3 : subC (coord 4 5 6) (coord 1 2 3) = coord 3 3 3 := by
    funext a
    cases a <;> norm_num [subC, coord]
  have hadd456 : addC (coord 4 5 6) (coord 3 3 3) = coord 7 8 9 := by
    funext a
    cases a <;> norm_num [addC, coord]
  have hsub2 : subC (coord 1 2 3) (coord 3 3 3) = coord (-2) (-1) 0 := by
    funext a
    cases a <;> norm_num [subC, coord]
  refine ⟨?_, ?_, ?_, ?_, ?_⟩
  · simp [SinglePointTransformation.update, SinglePointTransformation.init,
      identity_rotate_chip, hsub3, spt456]
  · simp [SinglePointTransformation.chip_to_stage, SinglePointTransformation.is_valid,
      spt456, identityAxesRotation_is_valid, identity_rotate_chip, hadd456]
  · simp [SinglePointTransformation.stage_to_chip, SinglePointTransformation.is_valid,
      spt456, identityAxesRotation_is_valid, hsub2, identity_rotate_stage]
  · intro h
    have h2 := congrFun h Axis.X
    norm_num [coord] at h2
  · intro h
    have h2 := congrFun h Axis.X
    norm_num [coord] at h2

/-- Calibration states from Calibration.py, with their enum values. -/
inductive State where
  | NOT_CONFIGURED
  | CONNECTED
  | COORDINATE_SYSTEM_FIXED
  | SINGLE_POINT_FIXED
  | FULLY_CALIBRATED
  deriving DecidableEq, Repr

/-- Enum value of a State (State.__lt__ compares these). -/
def State.val : State → Nat
  | State.NOT_CONFIGURED => 0
  | State.CONNECTED => 1
  | State.COORDINATE_SYSTEM_FIXED => 2
  | State.SINGLE_POINT_FIXED => 3
  | State.FULLY_CALIBRATED => 4

instance : LT State := ⟨fun a b => a.val < b.val⟩

instance : LE State := ⟨fun a b => a.val ≤ b.val⟩

instance (a b : State) : Decidable (a < b) :=
  inferInstanceAs (Decidable (a.val < b.val))

instance (a b : State) : Decidable (a ≤ b) :=
  inferInstanceAs (Decidable (a.val ≤ b.val))

instance : Fintype State :=
  ⟨⟨[State.NOT_CONFIGURED, State.CONNECTED, State.COORDINATE_SYSTEM_FIXED,
      State.SINGLE_POINT_FIXED, State.FULLY_CALIBRATED], by decide⟩,
    by intro a; cases a <;> decide⟩

/-- Outcome of the stage liveness probe performed by step 1 of
determine_state: the stage reference is None, get_status() returned None,
get_status() raised a StageError, or the stage responded. -/
inductive StageProbe where
  | noStage
  | statusNone
  | raisesStageError
  | responsive
  deriving DecidableEq, Repr

instance : Fintype StageProbe :=
  ⟨⟨[StageProbe.noStage, StageProbe.statusNone, StageProbe.raisesStageError,
      StageProbe.responsive], by decide⟩,
    by intro a; cases a <;> decide⟩

/-- Calibration.determine_state from Calibration.py.  The stored state prev
is overwritten with NOT_CONFIGURED at entry and never read; the three
transform-validity inputs are the is_valid results of the calibration's
axes rotation, single point transformation and full (Kabsch)
transformation, which are never None on a constructed Calibration. -/
def Calibration.determine_state (prev : State) (skip_connection : Bool)
    (probe : StageProbe) (axesValid spValid fullValid : Bool) : State :=
  let after_connected : State :=
    if axesValid = false then State.CONNECTED
    else if spValid = false then State.COORDINATE_SYSTEM_FIXED
    else if fullValid = false then State.SINGLE_POINT_FIXED
    else State.FULLY_CALIBRATED
  if skip_connection = false then
    match probe with
    | StageProbe.responsive => after_connected
    | _ => State.NOT_CONFIGURED
  else after_connected

/-- The state cascade as the claim words it: the highest level whose prefix
of probes all succeed, halting at the first failure. -/
def Calibration.determine_state_claim (skip_connection : Bool) (probe : StageProbe)
    (axesValid spValid fullValid : Bool) : State :=
  if skip_connection = false ∧ probe ≠ StageProbe.responsive then State.NOT_CONFIGURED
  else if axesValid = false then State.CONNECTED
  else if spValid = false then State.COORDINATE_SYSTEM_FIXED
  else if fullValid = false then State.SINGLE_POINT_FIXED
  else State.FULLY_CALIBRATED

/-- C3: determine_state computes exactly the claim's cascade, is at least
CONNECTED whenever the connection probe is skipped, and never depends on the
previously stored state. -/
theorem determine_state_correct : ∀ (prev : State) (skip : Bool) (probe : StageProbe)
    (axesValid spValid fullValid : Bool),
    Calibration.determine_state prev skip probe axesValid spValid fullValid
      = Calibration.determine_state_claim skip probe axesValid spValid fullValid ∧
    (skip = true →
      State.CONNECTED ≤ Calibration.determine_state prev skip probe axesValid spValid fullValid) ∧
    (∀ prev2 : State,
      Calibration.determine_state prev2 skip probe axesValid spValid fullValid
        = Calibration.determine_state prev skip probe axesValid spValid fullValid) := by
  decide

/-- Witness for C3: with skip_connection=true and every probe failing, the
recomputed state is still at least CONNECTED, for any two stored states. -/
theorem determine_state_correct_witness :
    State.CONNECTED ≤ Calibration.determine_state State.FULLY_CALIBRATED true
      StageProbe.raisesStageError false false false :=
  (determine_state_correct State.FULLY_CALIBRATED true StageProbe.raisesStageError
    false false false).2.1 rfl

/-- The two coordinate-system classes a caller can select on a Calibration
(StageCoordinate or ChipCoordinate); None models no selection. -/
inductive CoordSys where
  | stageSystem
  | chipSystem
  deriving DecidableEq, Repr

/-- KabschRotation from Transformations.py, after some updates: the number
of accumulated pairings, the rotation fitted by scipy Rotation.align_vectors
(orthogonal by construction; the least-squares fit itself is performed by
scipy and has no claim), and the two centroids. -/
structure KabschRotation where
  pairings : Nat
  rotation : Mat3
  chip_offset : Coord
  stage_offset : Coord

/-- KabschRotation.is_valid: at least MIN_POINTS = 3 pairings. -/
def KabschRotation.is_valid (k : KabschRotation) : Bool :=
  decide (3 ≤ k.pairings)

/-- KabschRotation.chip_to_stage: raises RuntimeError when not valid, else
applies the inverse rotation (scipy apply with inverse=True multiplies by
the transpose of the orthogonal rotation matrix) to the centered coordinate
and adds the stage centroid. -/
def KabschRotation.chip_to_stage (k : KabschRotation) (c : Coord) : Except Err Coord :=
  if k.is_valid then
    Except.ok (addC (mulVec3 (transpose3 k.rotation) (subC c k.chip_offset)) k.stage_offset)
  else Except.error Err.runtimeError

/-- KabschRotation.stage_to_chip: raises RuntimeError when not valid, else
applies the rotation to the centered coordinate and adds the chip
centroid. -/
def KabschRotation.stage_to_chip (k : KabschRotation) (s : Coord) : Except Err Coord :=
  if k.is_valid then
    Except.ok (addC (mulVec3 k.rotation (subC s k.stage_offset)) k.chip_offset)
  else Except.error Err.runtimeError

/-- The state of one Calibration as read by the guarded operations: its
stored state, the ephemeral coordinate-system selection, and its three
transforms. -/
structure Calibration where
  state : State
  current_coordinate_system : Option CoordSys
  axes_rotation : AxesRotation
  single_point_transformation : SinglePointTransformation
  full_transformation : KabschRotation

/-- The decorator assert_min_state_by_coordinate_system from Calibration.py:
raises CalibrationError when no coordinate system is selected, and when the
stored state is below the minimum state required for the selected system
(both supported systems always appear in the constraints dict). -/
def assert_min_state (constraints : CoordSys → State) (cal : Calibration) : Option Err :=
  match cal.current_coordinate_system with
  | none => some Err.calibrationError
  | some sys => if cal.state < constraints sys then some Err.calibrationError else none

/-- Calibration.move_relative: guarded by CONNECTED (stage frame) or
COORDINATE_SYSTEM_FIXED (chip frame); in the chip frame the difference is
rotated through the axes rotation.  The ok value is the relative vector
commanded to stage.move_relative. -/
def Calibration.move_relative (cal : Calibration) (relative_difference : Coord) :
    Except Err Coord :=
  match assert_min_state
      (fun sys => match sys with
        | CoordSys.stageSystem => State.CONNECTED
        | CoordSys.chipSystem => State.COORDINATE_SYSTEM_FIXED) cal with
  | some e => Except.error e
  | none =>
    match cal.current_coordinate_system with
    | some CoordSys.stageSystem => Except.ok relative_difference
    | some CoordSys.chipSystem => cal.axes_rotation.rotate_chip_to_stage relative_difference
    | none => Except.error Err.calibrationError

/-- Calibration.move_absolute: guarded by CONNECTED (stage frame) or
SINGLE_POINT_FIXED (chip frame).  In the chip frame the FULLY_CALIBRATED
branch commands the Kabsch transform of the target; in every other reachable
chip-frame state the local variable stage_coordinate is never assigned
(line 340 compares with == instead of assigning with =), so reading it
raises UnboundLocalError before any stage command.  The ok value is the
absolute target commanded to stage.move_absolute. -/
def Calibration.move_absolute (cal : Calibration) (coordinate : Coord) :
    Except Err Coord :=
  match assert_min_state
      (fun sys => match sys with
        | CoordSys.stageSystem => State.CONNECTED
        | CoordSys.chipSystem => State.SINGLE_POINT_FIXED) cal with
  | some e => Except.error e
  | none =>
    match cal.current_coordinate_system with
    | some CoordSys.stageSystem => Except.ok coordinate
    | some CoordSys.chipSystem =>
      if cal.state = State.FULLY_CALIBRATED then
        cal.full_transformation.chip_to_stage coordinate
      else Except.error Err.unboundLocalError
    | none => Except.error Err.calibrationError

/-- A Kabsch transformation with 3 pairings, identity rotation and zero
centroids. -/
def kabschId : KabschRotation := ⟨3, identity3, coord 0 0 0, coord 0 0 0⟩

/-- A calibration in the chip-frame scope at the given state, with the
transforms of the C5 setup. -/
def calAt (s : State) : Calibration :=
  ⟨s, some CoordSys.chipSystem, identityAxesRotation, spt456, kabschId⟩

/-- transpose3 of the identity matrix. -/
theorem transpose3_identity3 : transpose3 identity3 = identity3 := by
  funext r c
  cases r <;> cases c <;> simp [transpose3, identity3]

/-- Subtracting the zero coordinate does nothing. -/
theorem subC_zero (v : Coord) : subC v (coord 0 0 0) = v := by
  funext a
  cases a <;> simp [subC, coord]

/-- Adding the zero coordinate does nothing. -/
theorem addC_zero (v : Coord) : addC v (coord 0 0 0) = v := by
  funext a
  cases a <;> simp [addC, coord]

/-- C4 evaluation: move_absolute in the chip frame raises a
CalibrationError at state COORDINATE_SYSTEM_FIXED without commanding the
stage, raises UnboundLocalError at state SINGLE_POINT_FIXED (instead of
commanding the single-point transform of the target), and commands the
Kabsch transform of the target at state FULLY_CALIBRATED. -/
theorem move_absolute_state_dispatch :
    (calAt State.COORDINATE_SYSTEM_FIXED).move_absolute (coord 1 2 3)
      = Except.error Err.calibrationError ∧
    (calAt State.SINGLE_POINT_FIXED).move_absolute (coord 1 2 3)
      = Except.error Err.unboundLocalError ∧
    (calAt State.FULLY_CALIBRATED).move_absolute (coord 1 2 3)
      = kabschId.chip_to_stage (coord 1 2 3) ∧
    kabschId.chip_to_stage (coord 1 2 3) = Except.ok (coord 1 2 3) ∧
    spt456.chip_to_stage (coord 1 2 3) = Except.ok (coord 4 5 6) := by
  refine ⟨rfl, rfl, rfl, ?_, ?_⟩
  · simp [KabschRotation.chip_to_stage, KabschRotation.is_valid, kabschId,
      transpose3_identity3, subC_zero, addC_zero, mulVec3_identity3]
  · have hadd : addC (coord 1 2 3) (coord 3 3 3) = coord 4 5 6 := by
      funext a
      cases a <;> norm_num [addC, coord]
    simp [SinglePointTransformation.chip_to_stage, SinglePointTransformation.is_valid,
      spt456, identityAxesRotation_is_valid, identity_rotate_chip, hadd]

/-- The two speed settings of a stage read and written by wiggle_axis. -/
structure StageSettings where
  speed_xy : ℚ
  speed_z : ℚ
  deriving DecidableEq

/-- Calibration.wiggle_axis from Calibration.py (defaults: distance 1e3,
speed 1e3): reads the current speeds, sets both speeds to wiggle_speed,
then inside a chip-frame scope issues move_relative(+difference) and
move_relative(-difference), and only after both moves succeed writes the
saved speeds back; there is no try/finally, so an error raised by either
move leaves the stage at the wiggle speed.  Returns the final speed
settings, the list of relative vectors commanded to the stage, and the
first error raised. -/
def Calibration.wiggle_axis (cal : Calibration) (st : StageSettings) (wiggleAxis : Axis)
    (wiggle_distance wiggle_speed : ℚ) : StageSettings × List Coord × Option Err :=
  let current_speed_xy := st.speed_xy
  let current_speed_z := st.speed_z
  let st1 : StageSettings := ⟨wiggle_speed, wiggle_speed⟩
  let wiggle_difference : Coord := fun a => if wiggleAxis = a then wiggle_distance else 0
  let calChip : Calibration := { cal with current_coordinate_system := some CoordSys.chipSystem }
  match calChip.move_relative wiggle_difference with
  | Except.error e => (st1, [], some e)
  | Except.ok m1 =>
    match calChip.move_relative (negC wiggle_difference) with
    | Except.error e => (st1, [m1], some e)
    | Except.ok m2 => (⟨current_speed_xy, current_speed_z⟩, [m1, m2], none)

/-- A Kabsch transformation with no pairings yet (the rotation field of the
fresh Python object is None and never read while is_valid is false). -/
def kabschEmpty : KabschRotation := ⟨0, identity3, coord 0 0 0, coord 0 0 0⟩

/-- A calibration as in the repository's invalid-rotation wiggle test:
connected, with the axes rotation invalidated by update(X, POSITIVE, Y)
(two chip axes now map to stage axis Y), so determine_state left the state
at CONNECTED. -/
def calWiggleBad : Calibration :=
  ⟨State.CONNECTED, none, identityAxesRotation.update Axis.X Direction.POSITIVE Axis.Y,
    SinglePointTransformation.init
      (identityAxesRotation.update Axis.X Direction.POSITIVE Axis.Y),
    kabschEmpty⟩

/-- A calibration with the valid identity axes rotation at state
COORDINATE_SYSTEM_FIXED. -/
def calWiggleGood : Calibration :=
  ⟨State.COORDINATE_SYSTEM_FIXED, none, identityAxesRotation,
    SinglePointTransformation.init identityAxesRotation, kabschEmpty⟩

/-- C7 evaluation: when the first relative move raises (here the chip-frame
guard fails at state CONNECTED, as in the repository's own invalid-rotation
wiggle test), wiggle_axis returns with the stage speeds still at the wiggle
speed (1000, 1000) instead of restoring the original (200, 20); on the
success path the original speeds are restored and the two commanded moves
are +distance and -distance along the requested axis. -/
theorem wiggle_axis_speed_restore :
    calWiggleBad.wiggle_axis ⟨200, 20⟩ Axis.X 1000 1000
      = (⟨1000, 1000⟩, [], some Err.calibrationError) ∧
    (⟨1000, 1000⟩ : StageSettings) ≠ ⟨200, 20⟩ ∧
    calWiggleGood.wiggle_axis ⟨200, 20⟩ Axis.X 1000 1000
      = (⟨200, 20⟩, [fun a => if Axis.X = a then (1000 : ℚ) else 0,
          negC (fun a => if Axis.X = a then (1000 : ℚ) else 0)], none) := by
  refine ⟨rfl, ?_, ?_⟩
  · intro h
    have h2 := congrArg StageSettings.speed_xy h
    norm_num at h2
  · have hlt : ¬ (State.COORDINATE_SYSTEM_FIXED < State.COORDINATE_SYSTEM_FIXED) := by
      decide
    simp [Calibration.wiggle_axis, Calibration.move_relative, assert_min_state,
      calWiggleGood, hlt, identity_rotate_chip]

/-- The minimum clearance between the x-positions of the left and right
stages (MoverNew.MIN_FIBER_DISTANCE = 1.1 * 125.0 = 137.5). -/
def MIN_FIBER_DISTANCE : ℚ := 1.1 * 125.0

/-- An absolute move commanded to the left or right calibration by
MoverNew.move_absolute. -/
inductive MoveCmd where
  | leftMove (target : Coord)
  | rightMove (target : Coord)
  deriving DecidableEq

/-- The observable outcome of one MoverNew.move_absolute call: the
calibration-level move commands issued, in order, and the error raised, if
any. -/
structure MoveOutcome where
  cmds : List MoveCmd
  err : Option Err
  deriving DecidableEq

/-- MoverNew.move_absolute from MoverNew.py.  hasConnected is
mover.has_connected_stages (checked by the assert_connected_stages
decorator); hasTop/hasBottom flag targets for the unsupported TOP and
BOTTOM orientations; x0l and x0r are the chip-frame x positions read from
the left and right calibrations before any check; left and right are the
chip-frame targets from the movement dict.  Commands are recorded at the
granularity of Calibration.move_absolute calls. -/
def MoverNew.move_absolute (hasConnected hasTop hasBottom : Bool) (x0l x0r : ℚ)
    (left right : Option Coord) : MoveOutcome :=
  if hasConnected = false then ⟨[], some Err.moverError⟩
  else if hasTop = true ∨ hasBottom = true then ⟨[], some Err.unsupportedOperation⟩
  else if ¬ x0l < x0r - MIN_FIBER_DISTANCE then ⟨[], some Err.assertionError⟩
  else
    match left, right with
    | some l, none => ⟨[MoveCmd.leftMove l], none⟩
    | none, some r => ⟨[MoveCmd.rightMove r], none⟩
    | some l, some r =>
      if ¬ l Axis.X < r Axis.X - MIN_FIBER_DISTANCE then ⟨[], some Err.assertionError⟩
      else
        if l Axis.X - x0l < 0 ∧ r Axis.X - x0r < 0 then
          ⟨[MoveCmd.leftMove l, MoveCmd.rightMove r], none⟩
        else if l Axis.X - x0l < 0 ∧ 0 ≤ r Axis.X - x0r then
          ⟨[MoveCmd.leftMove l, MoveCmd.rightMove r], none⟩
        else if 0 ≤ l Axis.X - x0l ∧ r Axis.X - x0r < 0 then
          ⟨[MoveCmd.rightMove r, MoveCmd.leftMove l], none⟩
        else if 0 ≤ l Axis.X - x0l ∧ 0 ≤ r Axis.X - x0r then
          ⟨[MoveCmd.rightMove r, MoveCmd.leftMove l], none⟩
        else ⟨[], some Err.assertionError⟩
    | none, none => ⟨[], none⟩

/-- C1: whenever the current x-positions violate the minimum clearance
(x0l >= x0r - MIN_FIBER_DISTANCE), and whenever both targets are given and
the target x-positions violate it, move_absolute raises with no move
command issued to either stage. -/
theorem move_absolute_clearance_rejects (hasConnected hasTop hasBottom : Bool)
    (x0l x0r : ℚ) (left right : Option Coord) :
    (¬ x0l < x0r - MIN_FIBER_DISTANCE →
      (MoverNew.move_absolute hasConnected hasTop hasBottom x0l x0r left right).cmds = [] ∧
      (MoverNew.move_absolute hasConnected hasTop hasBottom x0l x0r left right).err.isSome
        = true) ∧
    (∀ l r, left = some l → right = some r → ¬ l Axis.X < r Axis.X - MIN_FIBER_DISTANCE →
      (MoverNew.move_absolute hasConnected hasTop hasBottom x0l x0r left right).cmds = [] ∧
      (MoverNew.move_absolute hasConnected hasTop hasBottom x0l x0r left right).err.isSome
        = true) := by
  constructor
  · intro h
    by_cases h1 : hasConnected = false
    · simp [MoverNew.move_absolute, h1]
    · by_cases h2 : hasTop = true ∨ hasBottom = true
      · simp [MoverNew.move_absolute, h1, h2]
      · simp [MoverNew.move_absolute, h1, h2, h]
  · intro l r hl hr htc
    subst hl
    subst hr
    by_cases h1 : hasConnected = false
    · simp [MoverNew.move_absolute, h1]
    · by_cases h2 : hasTop = true ∨ hasBottom = true
      · simp [MoverNew.move_absolute, h1, h2]
      · by_cases h3 : x0l < x0r - MIN_FIBER_DISTANCE
        · simp [MoverNew.move_absolute, h1, h2, h3, htc]
        · simp [MoverNew.move_absolute, h1, h2, h3]

/-- Witness for C1: with the spec's collision example left at x=0 and right
at x=100 (separation 100 < 137.5), the call is rejected with no commands. -/
theorem move_absolute_clearance_rejects_witness :
    (MoverNew.move_absolute true false false 0 100 (some (coord 0 0 0))
      (some (coord 50 0 0))).cmds = [] ∧
    (MoverNew.move_absolute true false false 0 100 (some (coord 0 0 0))
      (some (coord 50 0 0))).err.isSome = true :=
  (move_absolute_clearance_rejects true false false 0 100 (some (coord 0 0 0))
    (some (coord 50 0 0))).1 (by norm_num [MIN_FIBER_DISTANCE])

/-- C2: when both targets are given and both clearance checks pass, the left
stage is commanded first exactly when delta_l = x1l - x0l is negative, and
the right stage is commanded first exactly when delta_l >= 0; both stages
are always commanded, with no error. -/
theorem move_absolute_ordering (x0l x0r : ℚ) (l r : Coord)
    (h1 : x0l < x0r - MIN_FIBER_DISTANCE) (h2 : l Axis.X < r Axis.X - MIN_FIBER_DISTANCE) :
    MoverNew.move_absolute true false false x0l x0r (some l) (some r)
      = ⟨if l Axis.X - x0l < 0 then [MoveCmd.leftMove l, MoveCmd.rightMove r]
          else [MoveCmd.rightMove r, MoveCmd.leftMove l], none⟩ := by
  by_cases hdl : l Axis.X - x0l < 0
  · by_cases hdr : r Axis.X - x0r < 0
    · simp [MoverNew.move_absolute, h1, h2, hdl, hdr]
    · have hdr2 : 0 ≤ r Axis.X - x0r := not_lt.mp hdr
      simp [MoverNew.move_absolute, h1, h2, hdl, hdr, hdr2]
  · have hdl2 : 0 ≤ l Axis.X - x0l := not_lt.mp hdl
    by_cases hdr : r Axis.X - x0r < 0
    · simp [MoverNew.move_absolute, h1, h2, hdl, hdl2, hdr]
    · have hdr2 : 0 ≤ r Axis.X - x0r := not_lt.mp hdr
      simp [MoverNew.move_absolute, h1, h2, hdl, hdl2, hdr, hdr2]

/-- Witness for C2: left 0 -> -50 (delta_l < 0), right 200 -> 250: the left
stage is commanded before the right stage. -/
theorem move_absolute_ordering_witness :
    MoverNew.move_absolute true false false 0 200 (some (coord (-50) 0 0))
      (some (coord 250 0 0))
      = ⟨[MoveCmd.leftMove (coord (-50) 0 0), MoveCmd.rightMove (coord 250 0 0)], none⟩ := by
  rw [move_absolute_ordering 0 200 (coord (-50) 0 0) (coord 250 0 0)
    (by norm_num [MIN_FIBER_DISTANCE]) (by norm_num [MIN_FIBER_DISTANCE, coord])]
  norm_num [coord]

/-- Stage orientations from Calibration.py. -/
inductive StageOrientation where
  | LEFT
  | RIGHT
  | TOP
  | BOTTOM
  deriving DecidableEq, Repr

/-- Device ports from Calibration.py. -/
inductive DevicePort where
  | INPUT
  | OUTPUT
  deriving DecidableEq, Repr

/-- The mutable state of a MoverNew instance: the calibration registry keyed
by (orientation, port), the orientation-to-port mapping, the cached speed
and acceleration settings, the z-lift height and the stages_lifted flag. -/
structure MoverState where
  calibrations : List (StageOrientation × DevicePort)
  port_by_orientation : List (StageOrientation × DevicePort)
  speed_xy : Option ℚ
  speed_z : Option ℚ
  acceleration_xy : Option ℚ
  z_lift : ℚ
  stages_lifted : Bool

/-- MoverNew.DEFAULT_SPEED_Z = 20.0, the value both __init__ and reset
assign to _z_lift. -/
def DEFAULT_SPEED_Z : ℚ := 20.0

/-- MoverNew.reset: empties both registries and the cached speed,
acceleration and z-lift settings; the _stages_lifted flag is not assigned. -/
def MoverNew.reset (m : MoverState) : MoverState :=
  { calibrations := []
    port_by_orientation := []
    speed_xy := none
    speed_z := none
    acceleration_xy := none
    z_lift := DEFAULT_SPEED_Z
    stages_lifted := m.stages_lifted }

/-- MoverNew.lift_stages: requires a connected stage (decorator), returns
immediately when the stages are already lifted, otherwise commands every
registered calibration a chip-frame relative move of +z_lift and sets the
flag.  Returns the new state, the relative moves commanded per calibration,
and the error, if any. -/
def MoverNew.lift_stages (hasConnected : Bool) (m : MoverState) :
    MoverState × List ((StageOrientation × DevicePort) × Coord) × Option Err :=
  if hasConnected = false then (m, [], some Err.moverError)
  else if m.stages_lifted = true then (m, [], none)
  else ({ m with stages_lifted := true },
    m.calibrations.map (fun k => (k, coord 0 0 m.z_lift)), none)

/-- MoverNew.lower_stages: requires a connected stage (decorator), returns
immediately when the stages are not lifted, otherwise commands every
registered calibration a chip-frame relative move of -z_lift and clears the
flag. -/
def MoverNew.lower_stages (hasConnected : Bool) (m : MoverState) :
    MoverState × List ((StageOrientation × DevicePort) × Coord) × Option Err :=
  if hasConnected = false then (m, [], some Err.moverError)
  else if m.stages_lifted = false then (m, [], none)
  else ({ m with stages_lifted := false },
    m.calibrations.map (fun k => (k, coord 0 0 (-m.z_lift))), none)

/-- C9: a second lift_stages after a lift_stages issues no motion and leaves
the state unchanged (and likewise for lower_stages), while an effective lift
(flag down) moves every registered calibration by +z_lift along chip z and
an effective lower (flag up) moves every one by -z_lift. -/
theorem lift_lower_idempotent (m : MoverState) :
    (MoverNew.lift_stages true (MoverNew.lift_stages true m).1).2.1 = [] ∧
    (MoverNew.lift_stages true (MoverNew.lift_stages true m).1).1
      = (MoverNew.lift_stages true m).1 ∧
    (MoverNew.lower_stages true (MoverNew.lower_stages true m).1).2.1 = [] ∧
    (MoverNew.lower_stages true (MoverNew.lower_stages true m).1).1
      = (MoverNew.lower_stages true m).1 ∧
    (m.stages_lifted = false →
      (MoverNew.lift_stages true m).2.1
        = m.calibrations.map (fun k => (k, coord 0 0 m.z_lift)) ∧
      (MoverNew.lift_stages true m).1.stages_lifted = true ∧
      (MoverNew.lift_stages true m).2.2 = none) ∧
    (m.stages_lifted = true →
      (MoverNew.lower_stages true m).2.1
        = m.calibrations.map (fun k => (k, coord 0 0 (-m.z_lift))) ∧
      (MoverNew.lower_stages true m).1.stages_lifted = false ∧
      (MoverNew.lower_stages true m).2.2 = none) := by
  cases hm : m.stages_lifted <;>
    simp [MoverNew.lift_stages, MoverNew.lower_stages, hm]

/-- A mover with one registered calibration, the default z-lift and the
stages not lifted. -/
def moverExample : MoverState :=
  ⟨[(StageOrientation.LEFT, DevicePort.INPUT)], [(StageOrientation.LEFT, DevicePort.INPUT)],
    none, none, none, DEFAULT_SPEED_Z, false⟩

/-- Witness for C9: an effective lift on a concrete mover with one
registered calibration commands it a +z_lift chip-frame move. -/
theorem lift_lower_idempotent_witness :
    (MoverNew.lift_stages true moverExample).2.1
      = moverExample.calibrations.map (fun k => (k, coord 0 0 moverExample.z_lift)) ∧
    (MoverNew.lift_stages true moverExample).1.stages_lifted = true ∧
    (MoverNew.lift_stages true moverExample).2.2 = none :=
  (lift_lower_idempotent moverExample).2.2.2.2.1 rfl

/-- C10: reset clears the calibration registry, the orientation-to-port
mapping and the cached speed, acceleration and z-lift settings, but leaves
stages_lifted unchanged; consequently after lift_stages followed by reset
the flag is still up and the next lift_stages issues no motion and changes
nothing, even though no calibrations remain. -/
theorem reset_keeps_stages_lifted (m : MoverState) :
    (MoverNew.reset m).stages_lifted = m.stages_lifted ∧
    (MoverNew.reset m).calibrations = [] ∧
    (MoverNew.reset m).port_by_orientation = [] ∧
    (MoverNew.reset m).speed_xy = none ∧
    (MoverNew.reset m).speed_z = none ∧
    (MoverNew.reset m).acceleration_xy = none ∧
    (MoverNew.reset m).z_lift = DEFAULT_SPEED_Z ∧
    (MoverNew.reset (MoverNew.lift_stages true m).1).stages_lifted = true ∧
    (MoverNew.lift_stages true (MoverNew.reset (MoverNew.lift_stages true m).1)).2.1 = [] ∧
    (MoverNew.lift_stages true (MoverNew.reset (MoverNew.lift_stages true m).1)).1
      = MoverNew.reset (MoverNew.lift_stages true m).1 := by
  cases hm : m.stages_lifted <;>
    simp [MoverNew.reset, MoverNew.lift_stages, hm]
